import Mathlib

/-!
Verification of the diet-agent nutrition accounting engine.

Shallow embedding of the core code of the repository:
  * `diet_database.py`  (class `DietDatabase`): meal ledger, goal tracker,
    retention purge, statistics, user erasure.
  * `calorie_calculator.py` (class `CalorieCalculator`): nutrition resolver,
    local reference table, portion-size estimation, tips.
  * `app_webhook.py` (`set_goal_command`): goal-range validation.

Conventions of the embedding:
  * Python `int` is `Int`, Python `float` is `ℚ` (the numeric code only
    multiplies/divides/compares decimal literals on values of modest size,
    where binary floating point agrees with exact rational arithmetic on
    every comparison the theorems below depend on; see the comment at
    `check_calorie_limit_core` for the one nontrivial case).
  * The SQLite tables are lists of row records inside a `DB` value; SQL
    statements become list operations (`INSERT` = append, `DELETE ... WHERE`
    = `filter`, `SELECT ... WHERE` = `filter`, `ORDER BY` = sort,
    `fetchone` on a `PRIMARY KEY` lookup = `find?`).
  * The `date` column stores ISO `YYYY-MM-DD` text in SQLite and is compared
    lexicographically there; for valid dates that order coincides with the
    lexicographic order on `(year, month, day)`, which is how `Date` below
    is compared.
  * Python `round` (round half to even, exact on our rational model) is
    `pythonRound`; `round(x, 1)` is `roundTo1`.
-/

namespace Diet

/-- Calendar date as stored in the `date` column (ISO text in SQLite);
compared componentwise, which matches the lexicographic SQLite text
comparison on valid ISO dates. -/
structure Date where
  year : Int
  month : Nat
  day : Nat
deriving DecidableEq

/-- Lexicographic strict order on dates = SQLite `<` on ISO date text. -/
def dateLtB (a b : Date) : Bool :=
  decide (a.year < b.year) ||
    (decide (a.year = b.year) &&
      (decide (a.month < b.month) ||
        (decide (a.month = b.month) && decide (a.day < b.day))))

/-- One row of the `meals` table (`diet_database.py`, `init_database`). -/
structure MealRow where
  id : Nat
  user_id : Int
  date : Date
  dt : String
  foods_identified : String
  total_calories : Int
  total_protein : ℚ
  total_carbs : ℚ
  total_fat : ℚ
  photo_file_id : Option String
deriving DecidableEq

/-- One row of the `user_config` table (`user_id` is the primary key). -/
structure ConfigRow where
  user_id : Int
  daily_calorie_goal : Int
  weight_goal : Option String
  created_at : String
  updated_at : String
deriving DecidableEq

/-- The SQLite database state: both tables plus the AUTOINCREMENT counter. -/
structure DB where
  meals : List MealRow
  nextId : Nat
  configs : List ConfigRow
deriving DecidableEq

/-- Python `round` on an exact rational: round half to even. -/
def pythonRound (q : ℚ) : Int :=
  let f := ⌊q⌋
  let r := q - f
  if r < 1/2 then f
  else if 1/2 < r then f + 1
  else if f % 2 = 0 then f else f + 1

/-- Python `round(x, 1)`. -/
def roundTo1 (q : ℚ) : ℚ :=
  (pythonRound (q * 10) : ℚ) / 10

/-- Percent rendering with zero decimals (half-even), the `.0%` format. -/
def pctLabel (q : ℚ) : String :=
  toString (pythonRound (q * 100)) ++ "%"

/-- Label of one food: name plus percent confidence, as in `save_meal`. -/
def foodLabel (nc : String × ℚ) : String :=
  nc.1 ++ " (" ++ pctLabel nc.2 ++ ")"

/-- Comma-join of the food labels (`save_meal`). -/
def foodsText (foods : List (String × ℚ)) : String :=
  String.intercalate ", " (foods.map foodLabel)

/-- Embeds `save_meal`: a single `INSERT INTO meals` carrying the insertion-time
date and datetime; returns the new database and `cursor.lastrowid`. -/
def save_meal (db : DB) (user_id : Int) (today : Date) (now : String)
    (foods : List (String × ℚ)) (total_calories : Int)
    (total_protein total_carbs total_fat : ℚ)
    (photo_file_id : Option String) : DB × Nat :=
  let row : MealRow :=
    { id := db.nextId, user_id, date := today, dt := now
      foods_identified := foodsText foods, total_calories
      total_protein, total_carbs, total_fat, photo_file_id }
  ({ meals := db.meals ++ [row], nextId := db.nextId + 1
     configs := db.configs }, db.nextId)

/-- The caller-supplied arguments of one `save_meal` call (the insertion
datetime made explicit). -/
structure MealInput where
  now : String
  foods : List (String × ℚ)
  calories : Int
  protein : ℚ
  carbs : ℚ
  fat : ℚ
  photo : Option String
deriving DecidableEq

/-- A sequence of `save_meal` calls for one user on one date. -/
def save_meals (db : DB) (u : Int) (d : Date) : List MealInput → DB
  | [] => db
  | m :: rest =>
    save_meals (save_meal db u d m.now m.foods m.calories
      m.protein m.carbs m.fat m.photo).1 u d rest

/-- Rendering `"%H:%M"` of an ISO datetime `YYYY-MM-DDTHH:MM:SS`
(`datetime.fromisoformat(...).strftime("%H:%M")`). -/
def hhmm (s : String) : String :=
  String.mk ((s.data.drop 11).take 5)

/-- Boolean `≤` on ISO datetime text (SQLite `ORDER BY datetime`). -/
def leChars : List Char → List Char → Bool
  | [], _ => true
  | _ :: _, [] => false
  | a :: as, b :: bs =>
    if a = b then leChars as bs else Nat.blt a.toNat b.toNat

/-- Stable insertion used to realize `ORDER BY datetime`. -/
def insertDt (r : MealRow) : List MealRow → List MealRow
  | [] => [r]
  | x :: xs => if leChars x.dt.data r.dt.data then x :: insertDt r xs
               else r :: x :: xs

/-- Realizes `ORDER BY datetime` as a stable insertion sort. -/
def sortDt : List MealRow → List MealRow
  | [] => []
  | x :: xs => insertDt x (sortDt xs)

/-- One element of the `"meals"` list in the daily summary. -/
structure MealEntry where
  time : String
  foods : String
  calories : Int
  protein : ℚ
  carbs : ℚ
  fat : ℚ
deriving DecidableEq

/-- The dictionary returned by `get_daily_calories`. -/
structure DailyStats where
  date : Date
  total_calories : Int
  total_protein : ℚ
  total_carbs : ℚ
  total_fat : ℚ
  meal_count : Nat
  last_meal_time : Option String
  meals : List MealEntry
deriving DecidableEq

/-- The zero summary `get_daily_calories` returns from its `except` branch
(also the shape it returns when no rows match). -/
def zeroDaily (d : Date) : DailyStats :=
  { date := d, total_calories := 0, total_protein := 0, total_carbs := 0
    total_fat := 0, meal_count := 0, last_meal_time := none, meals := [] }

/-- Embeds `get_daily_calories` reading from the database state: select
the rows of the user for the date ordered by datetime, sum calories and
macros, count meals, report the time of day of the last meal. -/
def get_daily_caloriesDB (db : DB) (user_id : Int) (target : Date) : DailyStats :=
  let rows := sortDt (db.meals.filter
    (fun r => decide (r.user_id = user_id) && decide (r.date = target)))
  { date := target
    total_calories := (rows.map (·.total_calories)).sum
    total_protein := roundTo1 ((rows.map (·.total_protein)).sum)
    total_carbs := roundTo1 ((rows.map (·.total_carbs)).sum)
    total_fat := roundTo1 ((rows.map (·.total_fat)).sum)
    meal_count := rows.length
    last_meal_time := rows.getLast?.map (fun r => hhmm r.dt)
    meals := rows.map (fun r =>
      { time := hhmm r.dt, foods := r.foods_identified
        calories := r.total_calories, protein := roundTo1 r.total_protein
        carbs := roundTo1 r.total_carbs, fat := roundTo1 r.total_fat }) }

/-- Variant of `get_daily_calories` with the storage read outcome explicit: a failed
read is caught inside the function and degraded to the zero summary. -/
def get_daily_calories_res (d : Date) : Except String DailyStats → DailyStats
  | .ok s => s
  | .error _ => zeroDaily d

/-- The dictionary returned by `get_user_goal`. -/
structure UserGoal where
  daily_calorie_goal : Int
  weight_goal : Option String
  created_at : String
  updated_at : String
deriving DecidableEq

/-- Embeds `set_daily_goal`: `INSERT OR REPLACE INTO user_config` (delete any
conflicting primary-key row, insert the new one; `created_at` takes its
column default, a current timestamp, which we identify with `now`). -/
def set_daily_goal (db : DB) (user_id : Int) (calorie_goal : Int)
    (weight_goal : Option String) (now : String) : DB :=
  { db with configs :=
      db.configs.filter (fun c => !decide (c.user_id = user_id)) ++
        [{ user_id, daily_calorie_goal := calorie_goal, weight_goal
           created_at := now, updated_at := now }] }

/-- Embeds `get_user_goal` reading from the database state (`fetchone` on the
primary key). -/
def get_user_goalDB (db : DB) (user_id : Int) : Option UserGoal :=
  (db.configs.find? (fun c => decide (c.user_id = user_id))).map
    (fun c => { daily_calorie_goal := c.daily_calorie_goal
                weight_goal := c.weight_goal, created_at := c.created_at
                updated_at := c.updated_at })

/-- Variant of `get_user_goal` with the storage read outcome explicit: an exception
is caught inside the function and returned as `None`. -/
def get_user_goal_res : Except String (Option UserGoal) → Option UserGoal
  | .ok g => g
  | .error _ => none

/-- Embeds the `/setmeta` validation in `app_webhook.set_goal_command`: goals outside
[800, 5000] are rejected before anything touches storage; in-range goals
are passed to `set_daily_goal`.  Returns the new state and whether the
goal was persisted. -/
def set_goal_command (db : DB) (user_id : Int) (calorie_goal : Int)
    (now : String) : DB × Bool :=
  if calorie_goal < 800 ∨ 5000 < calorie_goal then (db, false)
  else (set_daily_goal db user_id calorie_goal none now, true)

/-- The three goal states assigned by `check_calorie_limit`. -/
inductive LimitStatus
  | safe
  | warning
  | exceed
deriving DecidableEq

/-- The dictionary returned by `check_calorie_limit` (fields absent on the
no-goal and error paths are `none`). -/
structure CheckResult where
  has_goal : Bool
  message : String
  status : Option LimitStatus
  daily_goal : Option Int
  current_calories : Option Int
  new_calories : Option Int
  projected_calories : Option Int
  current_percentage : Option ℚ
  projected_percentage : Option ℚ
  remaining_calories : Option Int
deriving DecidableEq

/-- Result when `get_user_goal` yields nothing. -/
def noGoalResult : CheckResult :=
  { has_goal := false
    message := "No tienes una meta calorica configurada. Usa /setmeta para establecerla."
    status := none, daily_goal := none, current_calories := none
    new_calories := none, projected_calories := none
    current_percentage := none, projected_percentage := none
    remaining_calories := none }

/-- Result of the `except` branch of `check_calorie_limit` (reached only when
the body itself raises, e.g. `ZeroDivisionError` on a zero goal). -/
def retryResult : CheckResult :=
  { has_goal := false
    message := "Error al verificar tu meta. Intenta nuevamente."
    status := none, daily_goal := none, current_calories := none
    new_calories := none, projected_calories := none
    current_percentage := none, projected_percentage := none
    remaining_calories := none }

/-- Body of `check_calorie_limit` given the results of the two reads.  The code
computes `current_calories / daily_goal`, which raises on a zero goal and
lands in the `except` branch; otherwise it classifies the projected total
against `daily_goal` and `daily_goal * 1.1`.  The literal `1.1` is a
binary float in Python; for integer calorie values and integer goals the
comparison `projected <= goal * 1.1` agrees with the exact rational
comparison used here (the float error is below `5e-13` while the operands
are at integer or `.1`-spaced rational positions). -/
def check_calorie_limit_core (goal : Option UserGoal) (stats : DailyStats)
    (new_calories : Int) : CheckResult :=
  match goal with
  | none => noGoalResult
  | some ug =>
    let current := stats.total_calories
    let projected := current + new_calories
    let g := ug.daily_calorie_goal
    if g = 0 then retryResult
    else
      let st : LimitStatus × String :=
        if projected ≤ g then
          (.safe, "Perfecto! Mantendras tu meta diaria.")
        else if (projected : ℚ) ≤ (g : ℚ) * (11/10) then
          (.warning, "Te acercaras al limite, pero aun dentro del rango aceptable.")
        else
          (.exceed, "ADVERTENCIA! Excederas tu meta por " ++
            toString (projected - g) ++
            " kcal. Esto puede afectar tus objetivos de peso.")
      { has_goal := true
        message := st.2
        status := some st.1
        daily_goal := some g
        current_calories := some current
        new_calories := some new_calories
        projected_calories := some projected
        current_percentage := some (roundTo1 ((current : ℚ) / (g : ℚ) * 100))
        projected_percentage := some (roundTo1 ((projected : ℚ) / (g : ℚ) * 100))
        remaining_calories := some (max 0 (g - current)) }

/-- Embeds `check_calorie_limit` against the database state (`today` made an
explicit parameter). -/
def check_calorie_limitDB (db : DB) (user_id : Int) (today : Date)
    (new_calories : Int) : CheckResult :=
  check_calorie_limit_core (get_user_goalDB db user_id)
    (get_daily_caloriesDB db user_id today) new_calories

/-- Variant of `check_calorie_limit` with the outcomes of the two storage
reads explicit: each helper catches its own storage exception (`get_user_goal` → `None`,
`get_daily_calories` → zero summary) before `check_calorie_limit` sees
the value. -/
def check_calorie_limit_res (goalRead : Except String (Option UserGoal))
    (today : Date) (dailyRead : Except String DailyStats)
    (new_calories : Int) : CheckResult :=
  check_calorie_limit_core (get_user_goal_res goalRead)
    (get_daily_calories_res today dailyRead) new_calories

/-- Embeds `delete_user_data`: delete the `meals` rows of the user, then
the `user_config` rows; the returned `deleted_count` is `cursor.rowcount`
after the *last* `execute`, i.e. the number of `user_config` rows
removed. -/
def delete_user_data (db : DB) (user_id : Int) : DB × Nat :=
  let meals2 := db.meals.filter (fun r => !decide (r.user_id = user_id))
  let deleted_count :=
    (db.configs.filter (fun c => decide (c.user_id = user_id))).length
  let configs2 := db.configs.filter (fun c => !decide (c.user_id = user_id))
  ({ meals := meals2, nextId := db.nextId, configs := configs2 }, deleted_count)

/-- Cutoff computation in `purge_old_data`: `today.replace(month=today.month
- months_to_keep, day=1)` when `today.month > months_to_keep`, otherwise
`today.replace(year=today.year - 1, month=12 - (months_to_keep -
today.month), day=1)`.  `date.replace` raises `ValueError` on a month
outside 1..12, modelled as `none` (the enclosing `try` then reports a
failed purge). -/
def purge_cutoff (today : Date) (months_to_keep : Nat) : Option Date :=
  if months_to_keep < today.month then
    some { year := today.year, month := today.month - months_to_keep, day := 1 }
  else
    let months_back := months_to_keep - today.month
    let m := 12 - months_back
    if 1 ≤ m then some { year := today.year - 1, month := m, day := 1 }
    else none

/-- The dictionary returned by `purge_old_data` (`cutoff_date`,
`affected_users` and `months_kept` are absent from the error dictionary). -/
structure PurgeResult where
  success : Bool
  cutoff_date : Option Date
  meals_deleted : Nat
  configs_deleted : Nat
  affected_users : Option Nat
  months_kept : Option Nat
deriving DecidableEq

/-- Embeds `purge_old_data`: delete meals dated strictly before the cutoff, then
delete every `user_config` row whose user no longer has any meal. -/
def purge_old_data (db : DB) (today : Date) (months_to_keep : Nat) :
    DB × PurgeResult :=
  match purge_cutoff today months_to_keep with
  | none =>
    (db, { success := false, cutoff_date := none, meals_deleted := 0
           configs_deleted := 0, affected_users := none, months_kept := none })
  | some cutoff =>
    let toDelete := db.meals.filter (fun r => dateLtB r.date cutoff)
    let meals2 := db.meals.filter (fun r => !dateLtB r.date cutoff)
    let remainingUsers : List Int := meals2.map (·.user_id)
    let configs2 := db.configs.filter
      (fun c => decide (c.user_id ∈ remainingUsers))
    let configs_deleted := (db.configs.filter
      (fun c => !decide (c.user_id ∈ remainingUsers))).length
    ({ meals := meals2, nextId := db.nextId, configs := configs2 },
     { success := true, cutoff_date := some cutoff
       meals_deleted := toDelete.length, configs_deleted := configs_deleted
       affected_users := some (toDelete.map (·.user_id)).dedup.length
       months_kept := some months_to_keep })

/-- The dictionary returned by `get_database_stats`. -/
structure DBStats where
  total_meals : Nat
  total_users : Nat
  total_configs : Nat
deriving DecidableEq

/-- Embeds `get_database_stats`: the `try` block counts meals, users and configs,
but the database-size step calls `cursor.fetchone()` twice on a one-row
query — the conditional consumes the row and the selected branch then
subscripts `None`, raising `TypeError` — so control always reaches the
`except` branch, which returns the zeroed statistics dictionary. -/
def get_database_stats (_db : DB) : DBStats :=
  { total_meals := 0, total_users := 0, total_configs := 0 }

/-! ## Nutrition resolver (`calorie_calculator.py`) -/

/-- A per-100g (or aggregate) nutrition record. -/
structure Nutri where
  calories : ℚ
  protein : ℚ
  carbs : ℚ
  fat : ℚ
deriving DecidableEq

/-- One food of the identification result; `none` models an absent
dictionary key (the code reads them with `.get` defaults). -/
structure FoodItem where
  name : String
  confidence : Option ℚ
  portion_size : Option String
  nutrition : Option Nutri
  estimated_grams : Option ℚ
  units_count : Option Nat
deriving DecidableEq

/-- A food-identification result that passed the guard
`"foods" in food_analysis` (a falsy or foods-less input is modelled as
`none` at `calculate_calories`). -/
structure FoodAnalysis where
  foods : List FoodItem
  total_nutrition : Option Nutri
deriving DecidableEq

/-- Embeds `self.calorie_database`: per-100g reference table, in source order
(dict iteration order = insertion order). -/
def calorie_database : List (String × Nutri) :=
  [("pollo", ⟨165, 31, 0, 3.6⟩),
   ("carne", ⟨250, 26, 0, 17⟩),
   ("pescado", ⟨150, 30, 0, 3⟩),
   ("huevo", ⟨155, 13, 1.1, 11⟩),
   ("frijoles", ⟨127, 9, 23, 0.5⟩),
   ("lentejas", ⟨116, 9, 20, 0.4⟩),
   ("arroz", ⟨130, 2.7, 28, 0.3⟩),
   ("pasta", ⟨131, 5, 25, 1.1⟩),
   ("pan", ⟨265, 9, 49, 3.2⟩),
   ("papa", ⟨77, 2, 17, 0.1⟩),
   ("quinoa", ⟨120, 4.4, 22, 1.9⟩),
   ("lechuga", ⟨15, 1.4, 2.9, 0.2⟩),
   ("tomate", ⟨18, 0.9, 3.9, 0.2⟩),
   ("cebolla", ⟨40, 1.1, 9.3, 0.1⟩),
   ("zanahoria", ⟨41, 0.9, 9.6, 0.2⟩),
   ("brócoli", ⟨34, 2.8, 7, 0.4⟩),
   ("manzana", ⟨52, 0.3, 14, 0.2⟩),
   ("plátano", ⟨89, 1.1, 23, 0.3⟩),
   ("naranja", ⟨47, 0.9, 12, 0.1⟩),
   ("fresa", ⟨32, 0.7, 7.7, 0.3⟩),
   ("aguacate", ⟨160, 2, 9, 15⟩),
   ("nuez", ⟨654, 15, 14, 65⟩),
   ("almendra", ⟨579, 21, 22, 50⟩),
   ("galletas", ⟨502, 6.9, 68.8, 22.9⟩),
   ("galletas serranita", ⟨433, 3.6, 62.5, 17.9⟩),
   ("galletas maria", ⟨428, 7.2, 74.3, 11.4⟩),
   ("galletas oreo", ⟨477, 4.4, 68.8, 20.6⟩),
   ("chips", ⟨536, 6.6, 53.0, 34.6⟩),
   ("papas fritas", ⟨365, 4.0, 63.2, 12.8⟩),
   ("chocolate", ⟨546, 4.9, 61.2, 31.3⟩),
   ("dulces", ⟨394, 0.0, 98.0, 0.2⟩),
   ("leche", ⟨42, 3.4, 5.0, 1.0⟩),
   ("yogur", ⟨59, 10.0, 3.6, 0.4⟩),
   ("queso", ⟨402, 25.0, 1.3, 33.0⟩),
   ("queso fresco", ⟨264, 11.1, 4.1, 23.0⟩),
   ("avena", ⟨389, 16.9, 66.3, 6.9⟩),
   ("cereal", ⟨379, 7.5, 84.0, 2.7⟩),
   ("granola", ⟨471, 10.1, 64.3, 20.3⟩),
   ("jugo", ⟨45, 0.7, 11.2, 0.2⟩),
   ("refresco", ⟨42, 0.0, 10.6, 0.0⟩),
   ("café", ⟨2, 0.3, 0.0, 0.0⟩),
   ("pizza", ⟨266, 11.0, 33.0, 10.0⟩),
   ("hamburguesa", ⟨295, 17.0, 31.0, 12.0⟩),
   ("sandwich", ⟨304, 12.8, 41.8, 10.7⟩),
   ("empanada", ⟨245, 8.5, 24.0, 13.2⟩),
   ("aceite", ⟨884, 0, 0, 100⟩),
   ("mantequilla", ⟨717, 0.9, 0.1, 81⟩)]

/-- Embeds `self.typical_portions`: default portion weight in grams per food. -/
def typical_portions : List (String × ℚ) :=
  [("pollo", 150), ("carne", 120), ("pescado", 140), ("huevo", 50),
   ("arroz", 80), ("pasta", 100), ("pan", 30), ("papa", 150),
   ("lechuga", 50), ("tomate", 100),
   ("manzana", 150), ("plátano", 120), ("aguacate", 100),
   ("galletas", 25), ("galletas serranita", 8.8), ("galletas maria", 7.0),
   ("galletas oreo", 11.0), ("chips", 30), ("papas fritas", 50),
   ("chocolate", 25),
   ("leche", 250), ("yogur", 125), ("queso", 30),
   ("jugo", 200), ("refresco", 350), ("café", 240)]

/-- Does `needle` start `hay`? -/
def startsWithB : List Char → List Char → Bool
  | [], _ => true
  | _ :: _, [] => false
  | a :: as, b :: bs => decide (a = b) && startsWithB as bs

/-- The contiguous-substring Python test `needle in hay` on character lists. -/
def containsSub (needle : List Char) : List Char → Bool
  | [] => needle.isEmpty
  | c :: rest => startsWithB needle (c :: rest) || containsSub needle rest

/-- Python `needle in hay` on strings. -/
def strContains (hay needle : String) : Bool :=
  containsSub needle.data hay.data

/-- Embeds `any(word in s for word in words)`. -/
def containsAny (s : String) (words : List String) : Bool :=
  words.any (fun w => strContains s w)

/-- Python `str.lower()` (the inputs the claims range over are ASCII;
`Char.toLower` lowercases exactly the ASCII uppercase letters). -/
def strLower (s : String) : String :=
  String.mk (s.data.map Char.toLower)

/-- Numeric value of a decimal digit character. -/
def digitVal (c : Char) : Nat := c.toNat - 48

/-- Accumulator pass of `re.findall` for digit runs followed by `int(...)`:
maximal runs of decimal digits, as numbers, in order. -/
def extractNumbersAux : List Char → Option Nat → List Nat
  | [], none => []
  | [], some acc => [acc]
  | c :: rest, none =>
    if c.isDigit then extractNumbersAux rest (some (digitVal c))
    else extractNumbersAux rest none
  | c :: rest, some acc =>
    if c.isDigit then extractNumbersAux rest (some (acc * 10 + digitVal c))
    else acc :: extractNumbersAux rest none

/-- Embeds `re.findall` for digit runs, converted to numbers. -/
def extractNumbers (s : String) : List Nat :=
  extractNumbersAux s.data none

/-- Embeds `self.typical_portions.get(food_name, 100)`. -/
def typicalPortionD (food_name : String) : ℚ :=
  ((typical_portions.find? (fun kv => decide (kv.1 = food_name))).map
    (·.2)).getD 100

/-- Embeds `_estimate_portion_size`: default weight adjusted by the free-text
portion description — first an explicit numeric count (uncapped for
`galleta`/`cookie` foods, capped at 3 otherwise), then spelled-out count
words, then size adjectives. -/
def estimate_portion_size (food_name : String) (portion_description : String) : ℚ :=
  let default_portion := typicalPortionD food_name
  if portion_description = "" then default_portion
  else
    let portion_lower := strLower portion_description
    match extractNumbers portion_lower with
    | quantity :: _ =>
      if strContains food_name "galleta" || strContains food_name "cookie" then
        default_portion * quantity
      else
        default_portion * (min quantity 3)
    | [] =>
      if containsAny portion_lower ["dos", "dos", "2", "par", "pareja"] then
        default_portion * 2
      else if containsAny portion_lower ["tres", "tres", "3"] then
        default_portion * 3
      else if containsAny portion_lower ["cuatro", "4"] then
        default_portion * 4
      else if containsAny portion_lower ["cinco", "5"] then
        default_portion * 5
      else if containsAny portion_lower ["pequeño", "pequeña", "mini"] then
        default_portion * 0.7
      else if containsAny portion_lower ["grande", "gran", "jumbo"] then
        default_portion * 1.5
      else if containsAny portion_lower ["muy grande", "enorme", "gigante"] then
        default_portion * 2.0
      else
        default_portion

/-- Embeds `_find_nutrition_info`: exact dictionary hit, then the first key that
is a substring of the name or contains it. -/
def find_nutrition_info (food_name : String) : Option Nutri :=
  match calorie_database.find? (fun kv => decide (kv.1 = food_name)) with
  | some kv => some kv.2
  | none =>
    (calorie_database.find? (fun kv =>
      strContains food_name kv.1 || strContains kv.1 food_name)).map (·.2)

/-- Embeds `_generate_tips`: threshold-derived advice sentences joined by spaces. -/
def generate_tips (calories protein carbs fat : ℚ) : String :=
  let tips : List String :=
    (if 800 < calories then
      ["Esta es una comida alta en calorias. Considera porciones mas pequenas."]
     else if calories < 200 then
      ["Esta comida es baja en calorias. Asegurate de obtener energia suficiente."]
     else []) ++
    (if protein < 10 then
      ["Considera agregar mas proteina a tu comida."]
     else if 40 < protein then
      ["Excelente contenido de proteina para la recuperacion muscular."]
     else []) ++
    (if 60 < carbs then
      ["Alto contenido de carbohidratos. Ideal despues del ejercicio."]
     else []) ++
    (if 30 < fat then
      ["Moderado-alto en grasas. Asegurate de que sean grasas saludables."]
     else [])
  let tips := if tips.isEmpty then ["Comida bien balanceada. Sigue asi!"] else tips
  String.intercalate " " tips

/-- One entry of the `identified_foods` itemization of the result
(`units_count` is absent — `none` — on the local-fallback path). -/
structure IdentifiedFood where
  name : String
  calories : ℚ
  portion_grams : ℚ
  units_count : Option Nat
  confidence : ℚ
deriving DecidableEq

/-- The dictionary returned by `calculate_calories` (`source` is absent
from `_empty_result`; the numeric contents of the macro breakdown are kept as
rationals — Python renders them as `f"{...}g"` strings). -/
structure CalorieResult where
  total_calories : Int
  breakdown_protein : ℚ
  breakdown_carbs : ℚ
  breakdown_fat : ℚ
  identified_foods : List IdentifiedFood
  unidentified_foods : List String
  source : Option String
  tips : String
deriving DecidableEq

/-- Embeds `_empty_result`. -/
def empty_result : CalorieResult :=
  { total_calories := 0, breakdown_protein := 0, breakdown_carbs := 0
    breakdown_fat := 0, identified_foods := [], unidentified_foods := []
    source := none
    tips := "No se pudo analizar la comida. Intenta con una foto mas clara." }

/-- Loop of the individual-nutrition path: accumulate the per-food
figures, itemize resolved foods, and collect foods without figures. -/
def individual_loop : List FoodItem →
    (ℚ × ℚ × ℚ × ℚ) × List IdentifiedFood × List String
  | [] => ((0, 0, 0, 0), [], [])
  | f :: rest =>
    let ((cal, p, c, fa), items, unids) := individual_loop rest
    match f.nutrition with
    | some n =>
      ((n.calories + cal, n.protein + p, n.carbs + c, n.fat + fa),
       { name := f.name, calories := (pythonRound n.calories : ℚ)
         portion_grams := f.estimated_grams.getD 0
         units_count := some (f.units_count.getD 0)
         confidence := f.confidence.getD 1 } :: items, unids)
    | none => ((cal, p, c, fa), items, f.name :: unids)

/-- Loop of the local-table fallback path: look each food up by its
lowercased name, scale the per-100g figures by the estimated portion and
the identification confidence; a food with no table hit contributes a flat
50 kcal inside the loop and is collected as unidentified. -/
def fallback_loop : List FoodItem →
    (ℚ × ℚ × ℚ × ℚ) × List IdentifiedFood × List String
  | [] => ((0, 0, 0, 0), [], [])
  | f :: rest =>
    let ((cal, p, c, fa), items, unids) := fallback_loop rest
    let food_name := strLower f.name
    let confidence := f.confidence.getD 0
    match find_nutrition_info food_name with
    | some n =>
      let portion_grams := estimate_portion_size food_name (f.portion_size.getD "")
      let calories := n.calories * portion_grams / 100 * confidence
      let protein := n.protein * portion_grams / 100 * confidence
      let carbs := n.carbs * portion_grams / 100 * confidence
      let fat := n.fat * portion_grams / 100 * confidence
      ((calories + cal, protein + p, carbs + c, fat + fa),
       { name := f.name, calories := (pythonRound calories : ℚ)
         portion_grams := portion_grams, units_count := none
         confidence := confidence } :: items, unids)
    | none =>
      ((50 + cal, p, c, fa),
       { name := f.name, calories := (pythonRound 50 : ℚ)
         portion_grams := 0, units_count := none
         confidence := confidence } :: items, f.name :: unids)

/-- Embeds `calculate_calories`.  Here `none` models a falsy input or one
without a `"foods"` key.  Priority: an aggregate `total_nutrition` block wins; else
per-food nutrition figures are summed; else the local reference table.
After either loop, every collected unidentified food adds another 50 kcal
(`estimated_calories = len(unidentified_foods) * 50`). -/
def calculate_calories (food_analysis : Option FoodAnalysis) : CalorieResult :=
  match food_analysis with
  | none => empty_result
  | some fa =>
    match fa.total_nutrition with
    | some tn =>
      { total_calories := pythonRound tn.calories
        breakdown_protein := roundTo1 tn.protein
        breakdown_carbs := roundTo1 tn.carbs
        breakdown_fat := roundTo1 tn.fat
        identified_foods := fa.foods.map (fun f =>
          { name := f.name
            calories := ((f.nutrition.map (·.calories)).getD 0)
            portion_grams := f.estimated_grams.getD 0
            units_count := some (f.units_count.getD 0)
            confidence := f.confidence.getD 1 })
        unidentified_foods := []
        source := some "OpenAI (analisis preciso)"
        tips := generate_tips tn.calories tn.protein tn.carbs tn.fat }
    | none =>
      let has_individual_nutrition := fa.foods.any (·.nutrition.isSome)
      let ((cal, p, c, f), items, unids) :=
        if has_individual_nutrition then individual_loop fa.foods
        else fallback_loop fa.foods
      let total_calories := cal + 50 * unids.length
      { total_calories := pythonRound total_calories
        breakdown_protein := roundTo1 p
        breakdown_carbs := roundTo1 c
        breakdown_fat := roundTo1 f
        identified_foods := items
        unidentified_foods := unids
        source := some (if has_individual_nutrition then "OpenAI + Base local"
                        else "Base de datos local (fallback)")
        tips := generate_tips total_calories p c f }

/-! ## Helper lemmas -/

theorem insertDt_perm (r : MealRow) (l : List MealRow) :
    (insertDt r l).Perm (r :: l) := by
  induction l with
  | nil => simp [insertDt]
  | cons x xs ih =>
    simp only [insertDt]
    split
    · exact ((ih.cons x).trans (List.Perm.swap r x xs))
    · exact List.Perm.refl _

theorem sortDt_perm (l : List MealRow) : (sortDt l).Perm l := by
  induction l with
  | nil => simp [sortDt]
  | cons x xs ih => exact (insertDt_perm x (sortDt xs)).trans (ih.cons x)

theorem sortDt_map_sum (f : MealRow → Int) (l : List MealRow) :
    ((sortDt l).map f).sum = (l.map f).sum :=
  ((sortDt_perm l).map f).sum_eq

/-- Searching `find?` by one key skips rows removed by a filter on a different key. -/
theorem find?_filter_other (l : List ConfigRow) (u v : Int) (h : v ≠ u) :
    (l.filter (fun c => !decide (c.user_id = u))).find?
        (fun c => decide (c.user_id = v)) =
      l.find? (fun c => decide (c.user_id = v)) := by
  induction l with
  | nil => simp
  | cons c t ih =>
    by_cases hc : c.user_id = u
    · have h2 : (decide (u = v)) = false := by
        simp only [decide_eq_false_iff_not]
        exact fun hh => h hh.symm
      simp [List.filter_cons, List.find?_cons, hc, h2, ih]
    · simp only [List.filter_cons, hc, decide_eq_true_eq, if_pos,
        Bool.not_false, decide_eq_false hc, List.find?_cons]
      cases hd : decide (c.user_id = v) <;> simp [hd, ih]

/-- Reference definition for claim C8: the `(year, month)` exactly `n`
calendar months before `(y, m)`, stepping back one month at a time. -/
def calendarMonthsBack : Int → Nat → Nat → Int × Nat
  | y, m, 0 => (y, m)
  | y, m, n + 1 =>
    if m ≤ 1 then calendarMonthsBack (y - 1) 12 n
    else calendarMonthsBack y (m - 1) n

theorem calendarMonthsBack_of_lt (n : Nat) :
    ∀ (m : Nat) (y : Int), n < m → calendarMonthsBack y m n = (y, m - n) := by
  induction n with
  | zero => intro m y _; simp [calendarMonthsBack]
  | succ k ih =>
    intro m y h
    have hm : ¬ m ≤ 1 := by omega
    simp only [calendarMonthsBack, if_neg hm]
    rw [ih (m - 1) y (by omega)]
    congr 1
    omega

theorem calendarMonthsBack_of_le :
    ∀ (m n : Nat) (y : Int), 1 ≤ m → m ≤ n → n ≤ m + 11 →
      calendarMonthsBack y m n = (y - 1, 12 - (n - m)) := by
  intro m
  induction m with
  | zero => intro n y h1 _ _; omega
  | succ k ih =>
    intro n y _ h2 h3
    obtain ⟨n', rfl⟩ : ∃ n', n = n' + 1 := ⟨n - 1, by omega⟩
    by_cases hk : k = 0
    · subst hk
      simp only [calendarMonthsBack, if_pos (by omega : 0 + 1 ≤ 1)]
      rw [calendarMonthsBack_of_lt n' 12 (y - 1) (by omega)]
      congr 1 <;> omega
    · have hgt : ¬ k + 1 ≤ 1 := by omega
      simp only [calendarMonthsBack, if_neg hgt, Nat.add_sub_cancel]
      rw [ih n' y (by omega) (by omega) (by omega)]
      congr 1 <;> omega

/-! ## Claims -/

/-- C2 (confirmed): when the identification result carries an aggregate
`total_nutrition` block, the total calories and macro breakdown of the resolver
are that block verbatim (calories through Python `round`, macros through
`round(x, 1)`), whatever per-food figures the foods carry — the per-food
figures are never summed (the statement holds for every `foods` list). -/
theorem C2_total_nutrition_priority (fa : FoodAnalysis) (tn : Nutri)
    (h : fa.total_nutrition = some tn) :
    (calculate_calories (some fa)).total_calories = pythonRound tn.calories ∧
    (calculate_calories (some fa)).breakdown_protein = roundTo1 tn.protein ∧
    (calculate_calories (some fa)).breakdown_carbs = roundTo1 tn.carbs ∧
    (calculate_calories (some fa)).breakdown_fat = roundTo1 tn.fat ∧
    (calculate_calories (some fa)).unidentified_foods = [] := by
  simp [calculate_calories, h]

/-- C2 witness: an aggregate block of 500 kcal next to a single food whose
own figures total 300 kcal; the output is 500, not 300. -/
theorem C2_witness :
    (calculate_calories (some ⟨[⟨"arroz", some 0.9, none,
        some ⟨300, 10, 40, 5⟩, some 150, some 1⟩],
        some ⟨500, 20, 50, 10⟩⟩)).total_calories = 500 ∧
    (calculate_calories (some ⟨[⟨"arroz", some 0.9, none,
        some ⟨300, 10, 40, 5⟩, some 150, some 1⟩],
        some ⟨500, 20, 50, 10⟩⟩)).breakdown_protein = 20 ∧
    (300 : ℚ) ≠ 500 := by
  have h := C2_total_nutrition_priority
    ⟨[⟨"arroz", some 0.9, none, some ⟨300, 10, 40, 5⟩, some 150, some 1⟩],
      some ⟨500, 20, 50, 10⟩⟩ ⟨500, 20, 50, 10⟩ rfl
  refine ⟨?_, ?_, by norm_num⟩
  · rw [h.1]; norm_num [pythonRound]
  · rw [h.2.1]; norm_num [roundTo1, pythonRound]

/-- C4 (code bug): in the local-table fallback path, a food matching
nothing in the reference table has `calories = 50` added inside the loop
*and* is collected into `unidentified_foods`, which adds another
`len(unidentified_foods) * 50` after the loop — so it contributes 100 kcal
to the total while its own itemization entry reports 50.  The flat spec value of
50 kcal is what the itemization (and the sibling per-food-nutrition path)
implement; the loop contribution double-counts it. -/
theorem C4_unknown_food_double_count :
    (calculate_calories (some ⟨[⟨"zzz", some 0.9, none, none, none, none⟩],
        none⟩)).total_calories = 100 ∧
    (calculate_calories (some ⟨[⟨"zzz", some 0.9, none, none, none, none⟩],
        none⟩)).identified_foods.map (·.calories) = [50] ∧
    (calculate_calories (some ⟨[⟨"zzz", some 0.9, none, none, none, none⟩],
        none⟩)).unidentified_foods = ["zzz"] := by
  have h1 : strLower "zzz" = "zzz" := rfl
  have h2 : find_nutrition_info "zzz" = none := by decide
  refine ⟨?_, ?_, ?_⟩ <;>
    simp only [calculate_calories, fallback_loop, h1, h2, List.any_cons,
      List.any_nil, Option.isSome_none, Bool.or_false, if_false,
      Bool.false_eq_true, List.length_cons, List.length_nil, List.map_cons,
      List.map_nil] <;>
    norm_num [pythonRound]

/-- C1 (confirmed): for a user with a configured daily goal `G` (goals are
persisted only through `/setmeta`, hence within [800, 5000] and in
particular positive) and current daily total `C`, `check_calorie_limit`
classifies `safe` iff `C + X ≤ G`, `warning` iff `G < C + X ≤ 1.1·G`, and
`exceed` iff `C + X > 1.1·G`, boundaries included. -/
theorem C1_check_calorie_limit_classification (db : DB) (u : Int)
    (today : Date) (X C G : Int)
    (hg : (get_user_goalDB db u).map (·.daily_calorie_goal) = some G)
    (hpos : 0 < G)
    (hC : (get_daily_caloriesDB db u today).total_calories = C) :
    ((check_calorie_limitDB db u today X).status = some .safe ↔ C + X ≤ G) ∧
    ((check_calorie_limitDB db u today X).status = some .warning ↔
      ((G : ℚ) < (C : ℚ) + (X : ℚ) ∧ (C : ℚ) + (X : ℚ) ≤ 1.1 * (G : ℚ))) ∧
    ((check_calorie_limitDB db u today X).status = some .exceed ↔
      1.1 * (G : ℚ) < (C : ℚ) + (X : ℚ)) := by
  obtain ⟨ug, hug⟩ : ∃ ug, get_user_goalDB db u = some ug := by
    cases hu : get_user_goalDB db u with
    | none => rw [hu] at hg; simp at hg
    | some ug => exact ⟨ug, rfl⟩
  rw [hug] at hg
  have hG : ug.daily_calorie_goal = G := by simpa using hg
  have hq : (0 : ℚ) < (G : ℚ) := by exact_mod_cast hpos
  have h11 : (1.1 : ℚ) = 11 / 10 := by norm_num
  unfold check_calorie_limitDB check_calorie_limit_core
  rw [hug]
  simp only [hC, hG]
  rw [if_neg (by omega : ¬ G = 0)]
  split_ifs with h1 h2
  · refine ⟨iff_of_true rfl h1, iff_of_false (by simp) ?_, iff_of_false (by simp) ?_⟩
    · rintro ⟨hlt, -⟩
      have : (C : ℚ) + (X : ℚ) ≤ (G : ℚ) := by exact_mod_cast h1
      linarith
    · intro hlt
      have : (C : ℚ) + (X : ℚ) ≤ (G : ℚ) := by exact_mod_cast h1
      rw [h11] at hlt
      linarith
  · push_cast at h2
    refine ⟨iff_of_false (by simp) (fun hle => h1 hle),
      iff_of_true rfl ⟨?_, ?_⟩, iff_of_false (by simp) ?_⟩
    · have : (G : Int) < C + X := by omega
      exact_mod_cast this
    · rw [h11]; linarith
    · rw [h11]; intro hlt; linarith
  · push_cast at h2
    refine ⟨iff_of_false (by simp) (fun hle => h1 hle),
      iff_of_false (by simp) ?_, iff_of_true rfl ?_⟩
    · rintro ⟨-, hle⟩
      rw [h11] at hle
      linarith
    · rw [h11]; linarith

/-- Concrete state for the C1 witness: user 1 has goal 2000 and 1800 kcal
logged today. -/
def dbC1 : DB :=
  { meals := [{ id := 1, user_id := 1, date := ⟨2026, 10, 12⟩
                dt := "2026-10-12T09:00:00", foods_identified := "pan (90%)"
                total_calories := 1800, total_protein := 0, total_carbs := 0
                total_fat := 0, photo_file_id := none }]
    nextId := 2
    configs := [{ user_id := 1, daily_calorie_goal := 2000, weight_goal := none
                  created_at := "t", updated_at := "t" }] }

/-- C1 witness: goal 2000 with 1800 kcal logged — a 150 kcal meal is
`safe` (1950 ≤ 2000), 300 kcal is `warning` (2000 < 2100 ≤ 2200), 500 kcal
is `exceed` (2300 > 2200). -/
theorem C1_witness :
    (check_calorie_limitDB dbC1 1 ⟨2026, 10, 12⟩ 150).status = some .safe ∧
    (check_calorie_limitDB dbC1 1 ⟨2026, 10, 12⟩ 300).status = some .warning ∧
    (check_calorie_limitDB dbC1 1 ⟨2026, 10, 12⟩ 500).status = some .exceed := by
  have hg : (get_user_goalDB dbC1 1).map (·.daily_calorie_goal) = some 2000 := by
    decide
  have hC : (get_daily_caloriesDB dbC1 1 ⟨2026, 10, 12⟩).total_calories = 1800 := by
    decide
  have ha := C1_check_calorie_limit_classification dbC1 1 ⟨2026, 10, 12⟩ 150
    1800 2000 hg (by decide) hC
  have hb := C1_check_calorie_limit_classification dbC1 1 ⟨2026, 10, 12⟩ 300
    1800 2000 hg (by decide) hC
  have hc := C1_check_calorie_limit_classification dbC1 1 ⟨2026, 10, 12⟩ 500
    1800 2000 hg (by decide) hC
  exact ⟨ha.1.mpr (by norm_num), hb.2.1.mpr (by norm_num), hc.2.2.mpr (by norm_num)⟩

/-- Concrete state for the C3 counterexample: user 1 has two meal records
and one goal configuration. -/
def dbC3 : DB :=
  { meals := [{ id := 1, user_id := 1, date := ⟨2026, 10, 11⟩
                dt := "2026-10-11T09:00:00", foods_identified := "pan (90%)"
                total_calories := 300, total_protein := 9, total_carbs := 49
                total_fat := 3.2, photo_file_id := none },
              { id := 2, user_id := 1, date := ⟨2026, 10, 12⟩
                dt := "2026-10-12T13:00:00", foods_identified := "arroz (80%)"
                total_calories := 200, total_protein := 2.7, total_carbs := 28
                total_fat := 0.3, photo_file_id := none }]
    nextId := 3
    configs := [{ user_id := 1, daily_calorie_goal := 2000, weight_goal := none
                  created_at := "t", updated_at := "t" }] }

/-- C3 counterexample: for a user with two meal records and one goal row,
`delete_user_data` returns 1 — `cursor.rowcount` of the final
`user_config` delete — not the 2 meal records removed. -/
theorem C3_counterexample :
    (delete_user_data dbC3 1).2 = 1 ∧
    (dbC3.meals.filter (fun r => decide (r.user_id = 1))).length = 2 ∧
    (delete_user_data dbC3 1).2 ≠
      (dbC3.meals.filter (fun r => decide (r.user_id = 1))).length := by
  refine ⟨by decide, by decide, by decide⟩

/-- C3 (corrected): `delete_user_data` does remove every meal record and
the goal configuration of the user (leaving other users untouched, after
which the goal of the user reads back as absent and every daily summary for the
user is zero), but the value it returns is the number of `user_config`
rows removed (0 or 1), not the number of meal records removed. -/
theorem C3_delete_user_data_amended (db : DB) (u : Int) :
    (delete_user_data db u).1.meals =
      db.meals.filter (fun r => !decide (r.user_id = u)) ∧
    (delete_user_data db u).1.configs =
      db.configs.filter (fun c => !decide (c.user_id = u)) ∧
    get_user_goalDB (delete_user_data db u).1 u = none ∧
    (∀ d : Date,
      (get_daily_caloriesDB (delete_user_data db u).1 u d).total_calories = 0 ∧
      (get_daily_caloriesDB (delete_user_data db u).1 u d).meal_count = 0) ∧
    (delete_user_data db u).2 =
      (db.configs.filter (fun c => decide (c.user_id = u))).length := by
  refine ⟨rfl, rfl, ?_, ?_, rfl⟩
  · unfold get_user_goalDB delete_user_data
    simp only [Option.map_eq_none', List.find?_eq_none, List.mem_filter]
    rintro c ⟨-, hc⟩
    simpa using hc
  · intro d
    have hnil : (delete_user_data db u).1.meals.filter
        (fun r => decide (r.user_id = u) && decide (r.date = d)) = [] := by
      unfold delete_user_data
      simp only [List.filter_filter, List.filter_eq_nil_iff]
      intro r _
      by_cases hr : r.user_id = u <;> simp [hr]
    unfold get_daily_caloriesDB
    rw [hnil]
    simp [sortDt]

/-- C5 (confirmed): `/setmeta` rejects any goal outside [800, 5000]
without touching storage, and an in-range goal is upserted, replacing any
previous goal for that user and leaving the goal of every other user intact. -/
theorem C5_set_goal_validation (db : DB) (u g : Int) (now : String) :
    ((g < 800 ∨ 5000 < g) → set_goal_command db u g now = (db, false)) ∧
    (800 ≤ g → g ≤ 5000 →
      (set_goal_command db u g now).2 = true ∧
      get_user_goalDB (set_goal_command db u g now).1 u =
        some { daily_calorie_goal := g, weight_goal := none
               created_at := now, updated_at := now } ∧
      (∀ v : Int, v ≠ u →
        get_user_goalDB (set_goal_command db u g now).1 v =
          get_user_goalDB db v)) := by
  constructor
  · intro h
    unfold set_goal_command
    rw [if_pos h]
  · intro h1 h2
    have hno : ¬ (g < 800 ∨ 5000 < g) := by omega
    refine ⟨?_, ?_, ?_⟩
    · unfold set_goal_command
      rw [if_neg hno]
    · unfold set_goal_command
      rw [if_neg hno]
      unfold get_user_goalDB set_daily_goal
      simp only [List.find?_append]
      have hleft : (db.configs.filter (fun c => !decide (c.user_id = u))).find?
          (fun c => decide (c.user_id = u)) = none := by
        simp only [List.find?_eq_none, List.mem_filter]
        rintro c ⟨-, hc⟩
        simpa using hc
      rw [hleft]
      simp [List.find?_cons]
    · intro v hv
      unfold set_goal_command
      rw [if_neg hno]
      unfold get_user_goalDB set_daily_goal
      simp only [List.find?_append]
      have hrow : (List.find? (fun c => decide (c.user_id = v))
          [({ user_id := u, daily_calorie_goal := g, weight_goal := none
              created_at := now, updated_at := now } : ConfigRow)]) = none := by
        simp only [List.find?_cons, List.find?_nil]
        have : (decide (u = v)) = false := by
          simp only [decide_eq_false_iff_not]
          exact fun hh => hv hh.symm
        simp [this]
      rw [hrow, find?_filter_other db.configs u v hv]
      cases List.find? (fun c => decide (c.user_id = v)) db.configs <;> rfl

/-- Prior state for the C5 witness: user 1 already has goal 1500. -/
def dbC5 : DB :=
  { meals := [], nextId := 1
    configs := [{ user_id := 1, daily_calorie_goal := 1500, weight_goal := none
                  created_at := "t0", updated_at := "t0" }] }

/-- C5 witness: goal 500 is rejected and user 1 keeps the prior goal 1500;
goal 2000 is accepted and replaces it. -/
theorem C5_witness :
    set_goal_command dbC5 1 500 "t1" = (dbC5, false) ∧
    get_user_goalDB dbC5 1 =
      some { daily_calorie_goal := 1500, weight_goal := none
             created_at := "t0", updated_at := "t0" } ∧
    (set_goal_command dbC5 1 2000 "t1").2 = true ∧
    get_user_goalDB (set_goal_command dbC5 1 2000 "t1").1 1 =
      some { daily_calorie_goal := 2000, weight_goal := none
             created_at := "t1", updated_at := "t1" } := by
  have h1 := (C5_set_goal_validation dbC5 1 500 "t1").1 (Or.inl (by decide))
  have h2 := (C5_set_goal_validation dbC5 1 2000 "t1").2 (by decide) (by decide)
  exact ⟨h1, by decide, h2.1, h2.2.1⟩

/-- Each `save_meal` appends one matching row: the daily filter over the
final state is the original filter plus one calorie entry per saved meal,
in order. -/
theorem save_meals_filter_map (u : Int) (d : Date) (ms : List MealInput) :
    ∀ db : DB,
      (((save_meals db u d ms).meals.filter
          (fun r => decide (r.user_id = u) && decide (r.date = d))).map
        (·.total_calories)) =
      (((db.meals.filter
          (fun r => decide (r.user_id = u) && decide (r.date = d))).map
        (·.total_calories)) ++ ms.map (·.calories)) := by
  induction ms with
  | nil => intro db; simp [save_meals]
  | cons m rest ih =>
    intro db
    rw [save_meals, ih]
    simp [save_meal, List.filter_append]

/-- C6 (confirmed): for meals saved for one user on one date (starting
from a state holding no rows for that user and date), the summary field
`total_calories` is the sum of the calories of the saved records, and the value
is invariant under permuting the insertion order. -/
theorem C6_daily_total_sum (db : DB) (u : Int) (d : Date)
    (ms ms' : List MealInput)
    (h0 : db.meals.filter
      (fun r => decide (r.user_id = u) && decide (r.date = d)) = [])
    (hperm : ms.Perm ms') :
    (get_daily_caloriesDB (save_meals db u d ms) u d).total_calories =
      (ms.map (·.calories)).sum ∧
    (get_daily_caloriesDB (save_meals db u d ms') u d).total_calories =
      (get_daily_caloriesDB (save_meals db u d ms) u d).total_calories := by
  have key : ∀ l : List MealInput,
      (get_daily_caloriesDB (save_meals db u d l) u d).total_calories =
        (l.map (·.calories)).sum := by
    intro l
    show ((sortDt ((save_meals db u d l).meals.filter
        (fun r => decide (r.user_id = u) && decide (r.date = d)))).map
        (·.total_calories)).sum = (l.map (·.calories)).sum
    rw [sortDt_map_sum, save_meals_filter_map u d l db, h0]
    simp
  refine ⟨key ms, ?_⟩
  rw [key ms, key ms']
  exact ((hperm.map (·.calories)).sum_eq).symm

/-- First meal of the C6 witness: 300 kcal at 08:00. -/
def miA : MealInput :=
  { now := "2026-10-12T08:00:00", foods := [("pan", 0.9)], calories := 300
    protein := 9, carbs := 49, fat := 3.2, photo := none }

/-- Second meal of the C6 witness: 200 kcal at 13:00. -/
def miB : MealInput :=
  { now := "2026-10-12T13:00:00", foods := [("arroz", 0.8)], calories := 200
    protein := 2.7, carbs := 28, fat := 0.3, photo := none }

/-- C6 witness: inserting 300 kcal then 200 kcal on the same date sums to
500 kcal, and inserting them in the opposite order gives the same total. -/
theorem C6_witness :
    (get_daily_caloriesDB (save_meals ⟨[], 1, []⟩ 1 ⟨2026, 10, 12⟩
        [miA, miB]) 1 ⟨2026, 10, 12⟩).total_calories = 500 ∧
    (get_daily_caloriesDB (save_meals ⟨[], 1, []⟩ 1 ⟨2026, 10, 12⟩
        [miB, miA]) 1 ⟨2026, 10, 12⟩).total_calories =
      (get_daily_caloriesDB (save_meals ⟨[], 1, []⟩ 1 ⟨2026, 10, 12⟩
        [miA, miB]) 1 ⟨2026, 10, 12⟩).total_calories := by
  have h := C6_daily_total_sum ⟨[], 1, []⟩ 1 ⟨2026, 10, 12⟩
    [miA, miB] [miB, miA] rfl (List.Perm.swap miB miA [])
  refine ⟨?_, h.2⟩
  rw [h.1]
  norm_num [miA, miB]

/-- C7 (confirmed): running the retention purge twice in a row with the
same current date and no intervening writes deletes nothing the second
time — `meals_deleted = 0`, `configs_deleted = 0` — and leaves the
database state (hence `get_database_stats`) unchanged. -/
theorem C7_purge_idempotent (db : DB) (today : Date) (n : Nat) :
    (purge_old_data (purge_old_data db today n).1 today n).2.meals_deleted = 0 ∧
    (purge_old_data (purge_old_data db today n).1 today n).2.configs_deleted = 0 ∧
    (purge_old_data (purge_old_data db today n).1 today n).1 =
      (purge_old_data db today n).1 ∧
    get_database_stats (purge_old_data (purge_old_data db today n).1 today n).1 =
      get_database_stats (purge_old_data db today n).1 := by
  refine ⟨?_, ?_, ?_, rfl⟩ <;>
  · cases hcut : purge_cutoff today n with
    | none => simp [purge_old_data, hcut]
    | some cutoff =>
      have hd : (db.meals.filter (fun r => !dateLtB r.date cutoff)).filter
          (fun r => dateLtB r.date cutoff) = [] := by
        rw [List.filter_eq_nil_iff]
        intro r hr
        have h2 := (List.mem_filter.mp hr).2
        simp only [Bool.not_eq_true'] at h2
        simp [h2]
      have hm2 : (db.meals.filter (fun r => !dateLtB r.date cutoff)).filter
          (fun r => !dateLtB r.date cutoff) =
          db.meals.filter (fun r => !dateLtB r.date cutoff) := by
        rw [List.filter_eq_self]
        exact fun r hr => (List.mem_filter.mp hr).2
      have hc2 : ∀ P : ConfigRow → Bool,
          (db.configs.filter P).filter P = db.configs.filter P :=
        fun P => List.filter_eq_self.mpr
          (fun c hc => (List.mem_filter.mp hc).2)
      have hc0 : ∀ P : ConfigRow → Bool,
          (db.configs.filter P).filter (fun c => !P c) = [] := by
        intro P
        rw [List.filter_eq_nil_iff]
        intro c hc
        have := (List.mem_filter.mp hc).2
        simp [this]
      have hdb1 : (purge_old_data db today n).1 =
          { meals := db.meals.filter (fun r => !dateLtB r.date cutoff)
            nextId := db.nextId
            configs := db.configs.filter (fun c => decide (c.user_id ∈
              (db.meals.filter (fun r => !dateLtB r.date cutoff)).map
                (fun x => x.user_id))) } := by
        simp [purge_old_data, hcut]
      rw [hdb1]
      simp only [purge_old_data, hcut, hm2]
      simp only [hd, hc0, hc2, List.length_nil, DB.mk.injEq]

/-- C8 counterexample: on 2026-01-15 with `months_to_keep = 13` the claim
demands the cutoff 2024-12-01 (13 months back), but the code computes
`month = 12 - (13 - 1) = 0`, `date.replace` raises `ValueError`, and the
purge reports failure with no cutoff at all. -/
theorem C8_counterexample :
    purge_cutoff ⟨2026, 1, 15⟩ 13 = none ∧
    purge_cutoff ⟨2026, 1, 15⟩ 13 ≠ some ⟨2024, 12, 1⟩ ∧
    calendarMonthsBack 2026 1 13 = (2024, 12) ∧
    (purge_old_data ⟨[], 1, []⟩ ⟨2026, 1, 15⟩ 13).2.success = false := by
  refine ⟨by decide, by decide, by decide, by decide⟩

/-- C8 (corrected): for `months_to_keep` in [1, 12] the computed cutoff is
the first day of the month exactly `months_to_keep` calendar months before
the current month, with year and month recomputed together across a year
boundary; for larger values the claim fails (see the counterexample) —
the subtraction can produce month 0 and the purge aborts. -/
theorem C8_purge_cutoff_amended (y : Int) (m d n : Nat)
    (hm1 : 1 ≤ m) (hm2 : m ≤ 12) (hn1 : 1 ≤ n) (hn2 : n ≤ 12) :
    purge_cutoff ⟨y, m, d⟩ n =
      some { year := (calendarMonthsBack y m n).1
             month := (calendarMonthsBack y m n).2
             day := 1 } := by
  by_cases h : n < m
  · rw [calendarMonthsBack_of_lt n m y h]
    unfold purge_cutoff
    rw [if_pos h]
  · have hle : m ≤ n := by omega
    rw [calendarMonthsBack_of_le m n y hm1 hle (by omega)]
    unfold purge_cutoff
    rw [if_neg h, if_pos (by omega : 1 ≤ 12 - (n - m))]

/-- C8 witness: from October 2026 keeping 2 months the cutoff is
2026-08-01; from January 2026 it is 2025-11-01 (year rollover). -/
theorem C8_witness :
    purge_cutoff ⟨2026, 10, 12⟩ 2 = some ⟨2026, 8, 1⟩ ∧
    purge_cutoff ⟨2026, 1, 15⟩ 2 = some ⟨2025, 11, 1⟩ := by
  have h1 := C8_purge_cutoff_amended 2026 10 12 2
    (by decide) (by decide) (by decide) (by decide)
  have h2 := C8_purge_cutoff_amended 2026 1 15 2
    (by decide) (by decide) (by decide) (by decide)
  rw [h1, h2]
  refine ⟨by decide, by decide⟩

/-- C9 counterexample: the description "grande para llevar" contains
"grande" and no count of any kind, yet the estimator returns 2 × the
default weight, not 1.5 × — the substring check for the pair-words hits
`"par" in "para"` before the size adjectives are consulted. -/
theorem C9_counterexample :
    strContains (strLower "grande para llevar") "grande" = true ∧
    extractNumbers (strLower "grande para llevar") = [] ∧
    estimate_portion_size "manzana" "grande para llevar" = 300 ∧
    typicalPortionD "manzana" * 1.5 = 225 ∧
    (300 : ℚ) ≠ 225 := by
  refine ⟨by decide, by decide, ?_, ?_, by norm_num⟩
  · have h1 : strLower "grande para llevar" = "grande para llevar" := rfl
    have h2 : extractNumbers "grande para llevar" = [] := by decide
    have h3 : containsAny "grande para llevar"
        ["dos", "dos", "2", "par", "pareja"] = true := by decide
    have h4 : typicalPortionD "manzana" = 150 := rfl
    simp only [estimate_portion_size, h1, h2, h3, h4, if_true]
    norm_num
    decide
  · rw [show typicalPortionD "manzana" = 150 from rfl]
    norm_num

/-- C9 (corrected): (1) a food whose name contains "galleta" with a
leading numeric count `q` in its description gets `q ×` the default unit
weight, uncapped; (2) a food whose name contains neither "galleta" nor
"cookie" gets its numeric count capped at 3; (3) a description containing
"grande" with no digits — and, as the counterexample forces, containing
none of the count-word substrings (dos/2/par/pareja, tres/3, cuatro/4,
cinco/5) nor a smaller-size adjective (pequeño/pequeña/mini) — yields
1.5 × the default weight. -/
theorem C9_portion_estimation_amended :
    (∀ (name desc : String) (q : Nat) (rest : List Nat),
      strContains name "galleta" = true →
      extractNumbers (strLower desc) = q :: rest →
      estimate_portion_size name desc = typicalPortionD name * q) ∧
    (∀ (name desc : String) (q : Nat) (rest : List Nat),
      strContains name "galleta" = false →
      strContains name "cookie" = false →
      extractNumbers (strLower desc) = q :: rest →
      estimate_portion_size name desc = typicalPortionD name * (min q 3)) ∧
    (∀ name desc : String,
      strContains (strLower desc) "grande" = true →
      extractNumbers (strLower desc) = [] →
      containsAny (strLower desc) ["dos", "dos", "2", "par", "pareja"] = false →
      containsAny (strLower desc) ["tres", "tres", "3"] = false →
      containsAny (strLower desc) ["cuatro", "4"] = false →
      containsAny (strLower desc) ["cinco", "5"] = false →
      containsAny (strLower desc) ["pequeño", "pequeña", "mini"] = false →
      estimate_portion_size name desc = typicalPortionD name * 1.5) := by
  refine ⟨?_, ?_, ?_⟩
  · intro name desc q rest hgal hnum
    have hne : desc ≠ "" := by
      intro h
      subst h
      rw [show extractNumbers (strLower "") = [] from rfl] at hnum
      exact List.noConfusion hnum
    unfold estimate_portion_size
    rw [if_neg hne]
    simp only [hnum, hgal, Bool.true_or, if_true]
  · intro name desc q rest hgal hcook hnum
    have hne : desc ≠ "" := by
      intro h
      subst h
      rw [show extractNumbers (strLower "") = [] from rfl] at hnum
      exact List.noConfusion hnum
    unfold estimate_portion_size
    rw [if_neg hne]
    simp only [hnum, hgal, hcook, Bool.or_self, Bool.false_eq_true, if_false]
  · intro name desc hgr hnum h2 h3 h4 h5 hsmall
    have hne : desc ≠ "" := by
      intro h
      subst h
      exact absurd hgr (by decide)
    have hbig : containsAny (strLower desc) ["grande", "gran", "jumbo"] = true := by
      simp [containsAny, hgr]
    unfold estimate_portion_size
    rw [if_neg hne]
    simp only [hnum, h2, h3, h4, h5, hsmall, hbig, Bool.false_eq_true,
      if_false, if_true]

/-- C9 witness: "galletas maria" with count 4 gives 4 × 7 g = 28 g
(uncapped); "manzana" with count 5 is capped at 3 × 150 g = 450 g;
"papa" described "grande" gives 1.5 × 150 g = 225 g. -/
theorem C9_witness :
    estimate_portion_size "galletas maria" "4 galletas" = 28 ∧
    estimate_portion_size "manzana" "5 manzanas" = 450 ∧
    estimate_portion_size "papa" "grande" = 225 := by
  obtain ⟨hA, hB, hC⟩ := C9_portion_estimation_amended
  refine ⟨?_, ?_, ?_⟩
  · rw [hA "galletas maria" "4 galletas" 4 [] (by decide) (by decide),
      show typicalPortionD "galletas maria" = 7.0 from rfl]
    norm_num
  · rw [hB "manzana" "5 manzanas" 5 [] (by decide) (by decide) (by decide),
      show typicalPortionD "manzana" = 150 from rfl]
    norm_num
  · rw [hC "papa" "grande" (by decide) (by decide) (by decide) (by decide)
      (by decide) (by decide) (by decide),
      show typicalPortionD "papa" = 150 from rfl]
    norm_num

/-- C10 counterexample: a storage failure while reading the daily total is
absorbed inside `get_daily_calories` (zero summary), so `check_calorie_limit`
proceeds and returns `has_goal = true` with the normal safe message — not
the claimed `has_goal = false` with a retry message. -/
theorem C10_counterexample :
    (check_calorie_limit_res
        (.ok (some { daily_calorie_goal := 2000, weight_goal := none
                     created_at := "t", updated_at := "t" }))
        ⟨2026, 10, 12⟩ (.error "disk I O error") 100).has_goal = true ∧
    (check_calorie_limit_res
        (.ok (some { daily_calorie_goal := 2000, weight_goal := none
                     created_at := "t", updated_at := "t" }))
        ⟨2026, 10, 12⟩ (.error "disk I O error") 100).message ≠
      retryResult.message := by
  refine ⟨by decide, by decide⟩

/-- C10 (corrected): `check_calorie_limit` is total (modelled as a total
function over the outcome of each storage read), but failures are absorbed
one level lower than the claim says: a failed goal read makes
`get_user_goal` return `None`, so the result is exactly the no-goal
steady-state result (indistinguishable from no goal configured, configure
prompt and all); a failed daily-total read makes `get_daily_calories`
return the zero summary, so the check proceeds with `has_goal = true`;
the retry message appears only when the own body of `check_calorie_limit`
raises — e.g. the division by a zero goal. -/
theorem C10_error_absorption_amended :
    (∀ (e : String) (d : Date) (dr : Except String DailyStats) (X : Int),
      check_calorie_limit_res (.error e) d dr X = noGoalResult) ∧
    (∀ (e : String) (d : Date) (dr : Except String DailyStats) (X : Int),
      check_calorie_limit_res (.error e) d dr X =
        check_calorie_limit_res (.ok none) d dr X) ∧
    (∀ (ug : UserGoal) (d : Date) (e : String) (X : Int),
      ug.daily_calorie_goal ≠ 0 →
      (check_calorie_limit_res (.ok (some ug)) d (.error e) X).has_goal = true ∧
      check_calorie_limit_res (.ok (some ug)) d (.error e) X =
        check_calorie_limit_core (some ug) (zeroDaily d) X) ∧
    (∀ (ug : UserGoal) (s : DailyStats) (X : Int),
      ug.daily_calorie_goal = 0 →
      check_calorie_limit_core (some ug) s X = retryResult) := by
  refine ⟨fun e d dr X => rfl, fun e d dr X => rfl, ?_, ?_⟩
  · intro ug d e X hg
    refine ⟨?_, rfl⟩
    simp only [check_calorie_limit_res, get_user_goal_res,
      get_daily_calories_res, check_calorie_limit_core]
    rw [if_neg hg]
  · intro ug s X hg
    simp only [check_calorie_limit_core]
    rw [if_pos hg]

/-- C10 witness: a failed goal read gives exactly the no-goal result; a
failed daily read with goal 1500 still reports `has_goal = true`; a zero
goal reaches the retry result. -/
theorem C10_witness :
    check_calorie_limit_res (.error "db locked") ⟨2026, 10, 12⟩
      (.ok (zeroDaily ⟨2026, 10, 12⟩)) 100 = noGoalResult ∧
    (check_calorie_limit_res
        (.ok (some { daily_calorie_goal := 1500, weight_goal := none
                     created_at := "t", updated_at := "t" }))
        ⟨2026, 10, 12⟩ (.error "db locked") 100).has_goal = true ∧
    check_calorie_limit_core
      (some { daily_calorie_goal := 0, weight_goal := none
              created_at := "t", updated_at := "t" })
      (zeroDaily ⟨2026, 10, 12⟩) 100 = retryResult := by
  obtain ⟨h1, -, h3, h4⟩ := C10_error_absorption_amended
  exact ⟨h1 "db locked" ⟨2026, 10, 12⟩ (.ok (zeroDaily ⟨2026, 10, 12⟩)) 100,
    (h3 { daily_calorie_goal := 1500, weight_goal := none
          created_at := "t", updated_at := "t" }
      ⟨2026, 10, 12⟩ "db locked" 100 (by decide)).1,
    h4 { daily_calorie_goal := 0, weight_goal := none
         created_at := "t", updated_at := "t" }
      (zeroDaily ⟨2026, 10, 12⟩) 100 rfl⟩

end Diet
